import Mathlib

/-!
Shallow embedding of the event capture, filter, batch and deliver pipeline of
the seedcore-hotel-simulator repository: the client-side KafkaPublisherService
(circuit breaker, boot-state filter, type allow-list, one-second
deduplication, bounded re-queue), the EventEmitterService dispatch loop, and
the server-side ingress endpoint handling POST requests to the events route.

Modelling conventions: times are integers (milliseconds since epoch, the
value of Date.now in the source); the payload field of an envelope is
represented by its serialized form, since the source only ever uses the
payload through JSON.stringify when computing the deduplication key and the
wire body; the per-key window storage on the browser window object is an
association list from key strings to timestamps; the asynchronous flush of
the source is split into flushBegin (the synchronous snapshot-and-clear
prefix before the network await) and flushEnd (the completion handler run
when the network call settles, with the snapshotted batch and the success
bit as inputs), so that envelopes published during the in-flight network
call are exactly those enqueued between the two phases.
-/

/-- The unified event envelope of eventTypes, with payload held in its
serialized form. -/
structure SeedcoreHotelEvent where
  eventId : String
  timestamp : Int
  sessionId : String
  userId : Option String
  source : String
  type : String
  payload : String
deriving DecidableEq, Repr

/-- The fixed allow-list ALLOWED_EVENT_TYPES of eventTypes (client side). -/
def ALLOWED_EVENT_TYPES : List String :=
  ["ui.hotspot.entered",
   "ui.hotspot.left",
   "ui.voice.transcript.final",
   "ui.button.clicked",
   "ui.keyboard.pressed",
   "sim.room.occupancy.changed",
   "sim.agent.state.changed"]

/-- The boot-screen UI allow-list BOOT_ALLOWED_UI built inside publish. -/
def BOOT_ALLOWED_UI : List String :=
  ["ui.button.clicked", "ui.keyboard.pressed"]

/-- State of the KafkaPublisherService: the AI-enabled flag, the circuit
breaker flag, the consecutive failure counter, whether the periodic flush
interval is installed, the outbound queue, and the per-key deduplication
timestamps (the window properties named recent underscore key in the
source). -/
structure PublisherState where
  isAiEnabled : Bool
  isCircuitOpen : Bool
  consecutiveFailures : Nat
  timerActive : Bool
  eventQueue : List SeedcoreHotelEvent
  recent : List (String × Int)
deriving DecidableEq, Repr

/-- The maxFailures field of KafkaPublisherService. -/
def maxFailures : Nat := 3

/-- The deduplication key: event type, a colon, and the serialized payload. -/
def eventKey (e : SeedcoreHotelEvent) : String :=
  e.type ++ ":" ++ e.payload

/-- Reading the stored last-accepted timestamp for a key: none models an
undefined window property. -/
def lookupRecent (recent : List (String × Int)) (k : String) : Option Int :=
  (recent.find? (fun p => p.1 == k)).map Prod.snd

/-- Assigning the window property for a key to a timestamp. -/
def setRecent (recent : List (String × Int)) (k : String) (v : Int) :
    List (String × Int) :=
  (k, v) :: recent.filter (fun p => p.1 != k)

/-- The allow-list and deduplication tail of publish: drop a non-allow-listed
type; drop when the stored timestamp for the key is truthy (JavaScript: a
stored 0 is falsy and does not suppress) and less than 1000 ms old;
otherwise record the acceptance time and append the envelope to the queue. -/
def publishCore (now : Int) (e : SeedcoreHotelEvent) (s : PublisherState) :
    PublisherState :=
  if e.type ∉ ALLOWED_EVENT_TYPES then s
  else
    match lookupRecent s.recent (eventKey e) with
    | some t =>
      if t ≠ 0 ∧ now - t < 1000 then s
      else { s with recent := setRecent s.recent (eventKey e) now,
                    eventQueue := s.eventQueue ++ [e] }
    | none => { s with recent := setRecent s.recent (eventKey e) now,
                       eventQueue := s.eventQueue ++ [e] }

/-- The publish method of KafkaPublisherService: drop silently when the
circuit is open; while the AI-enabled flag is false drop every sim-sourced
envelope and every ui-sourced envelope whose type is outside
BOOT_ALLOWED_UI; then run the allow-list and deduplication stage. The
high-water-mark immediate flush the source triggers at queue length 50 is
asynchronous and is modelled by the separate flushBegin and flushEnd
operations. -/
def publish (now : Int) (e : SeedcoreHotelEvent) (s : PublisherState) :
    PublisherState :=
  if s.isCircuitOpen then s
  else if s.isAiEnabled = false then
    if e.source = "sim" then s
    else if e.source = "ui" ∧ e.type ∉ BOOT_ALLOWED_UI then s
    else publishCore now e s
  else publishCore now e s

/-- The synchronous prefix of flush: return without a network call when the
queue is empty; when the circuit is open clear the queue and return without
a network call; otherwise snapshot the queue, clear it, and hand the
snapshot to the network attempt. The first component is the batch sent over
the network, none when no network call happens. -/
def flushBegin (s : PublisherState) : Option (List SeedcoreHotelEvent) × PublisherState :=
  if s.eventQueue.isEmpty then (none, s)
  else if s.isCircuitOpen then (none, { s with eventQueue := [] })
  else (some s.eventQueue, { s with eventQueue := [] })

/-- The completion handler of flush, run when the network call settles. On
success reset the failure counter and, if the circuit was open, close it and
restart the timer. On failure increment the counter; when it reaches
maxFailures open the circuit, cancel the timer and clear the queue;
otherwise re-insert the whole snapshotted batch at the head of the queue
provided the current queue holds fewer than 100 entries, and drop the whole
batch otherwise. -/
def flushEnd (events : List SeedcoreHotelEvent) (success : Bool)
    (s : PublisherState) : PublisherState :=
  if success then
    if s.consecutiveFailures > 0 then
      if s.isCircuitOpen then
        { s with consecutiveFailures := 0, isCircuitOpen := false,
                 timerActive := true }
      else { s with consecutiveFailures := 0 }
    else s
  else
    if s.consecutiveFailures + 1 ≥ maxFailures then
      { s with consecutiveFailures := s.consecutiveFailures + 1,
               isCircuitOpen := true, timerActive := false, eventQueue := [] }
    else if s.eventQueue.length < 100 then
      { s with consecutiveFailures := s.consecutiveFailures + 1,
               eventQueue := events ++ s.eventQueue }
    else
      { s with consecutiveFailures := s.consecutiveFailures + 1 }

/-- The resetCircuit method: when the circuit is open, close it, reset the
failure counter and restart the flush interval; otherwise do nothing. -/
def resetCircuit (s : PublisherState) : PublisherState :=
  if s.isCircuitOpen then
    { s with isCircuitOpen := false, consecutiveFailures := 0,
             timerActive := true }
  else s

/-!
The EventEmitterService dispatch loop. A subscriber callback is identified
by a numeric id; what matters for the dispatch semantics is the side effect
the callback performs on the callbacks array when invoked: nothing, throwing
an exception (caught by the try block around each invocation, so equivalent
to nothing for the array), unsubscribing the callback with a given id (the
closure returned by subscribe: indexOf followed by splice of one element),
or subscribing a fresh callback (push at the end). The emit method iterates
with Array.prototype.forEach, whose range is fixed to the array length read
at the start, and which at each index reads the current, possibly mutated,
array and skips indices past its current end.
-/

/-- The side effect a subscriber callback performs when invoked. -/
inductive CbAction where
  | pass : CbAction
  | throws : CbAction
  | unsub : Nat → CbAction
  | sub : Nat → CbAction
deriving DecidableEq, Repr

/-- A registered subscriber callback. -/
structure Callback where
  id : Nat
  action : CbAction
deriving DecidableEq, Repr

/-- The unsubscribe closure returned by subscribe: find the index of the
first callback with the given id and splice it out; when the id is absent
the array is unchanged. -/
def removeFirstCb : List Callback → Nat → List Callback
  | [], _ => []
  | c :: rest, target =>
    if c.id = target then rest else c :: removeFirstCb rest target

/-- Apply the side effect of one callback invocation to the callbacks
array. A throwing callback is caught by the try block, so it mutates
nothing. -/
def applyAction (cbs : List Callback) (a : CbAction) : List Callback :=
  match a with
  | .pass => cbs
  | .throws => cbs
  | .unsub target => removeFirstCb cbs target
  | .sub n => cbs ++ [⟨n, .pass⟩]

/-- The forEach loop of emitHotelEvent over the live callbacks array:
iterate the index k from 0 up to the length captured at the start; at each
step, when the current array still has an element at k, invoke it (recording
the delivery) and apply its side effect; when the array has shrunk below k,
skip. The first Nat argument is the number of remaining iterations. -/
def dispatchAux : Nat → Nat → List Callback → List Nat →
    List Nat × List Callback
  | 0, _, cbs, delivered => (delivered, cbs)
  | n + 1, k, cbs, delivered =>
    match cbs.get? k with
    | none => dispatchAux n (k + 1) cbs delivered
    | some cb => dispatchAux n (k + 1) (applyAction cbs cb.action)
        (delivered ++ [cb.id])

/-- One emitHotelEvent dispatch: run the forEach loop from index 0 with the
range fixed to the initial array length; return the ids delivered to, in
order, and the final callbacks array. -/
def emitDispatch (cbs : List Callback) : List Nat × List Callback :=
  dispatchAux cbs.length 0 cbs []

/-!
The ingress endpoint of the server: the handler of POST requests on the
events route. The two broker flags are CONFLUENT_ENABLED and whether the
kafkaProducer was constructed. The request body either lacks an events
array (modelled as none, covering both an absent field and a non-array
value) or carries a list of received events whose fields may be missing.
The outcome of the awaited kafkaProducer send is an input: none for
success, or the thrown error message. The handler returns the HTTP
response and the list of messages handed to the broker.
-/

/-- An event as received by the ingress endpoint: the type and sessionId
fields may be absent. -/
structure IngressEvent where
  type? : Option String
  sessionId? : Option String
  payload? : Option String
deriving DecidableEq, Repr

/-- The broker configuration flags read by the handler. -/
structure IngressConfig where
  confluentEnabled : Bool
  producerConfigured : Bool
deriving DecidableEq, Repr

/-- The JSON body of the HTTP response, with its status code; absent fields
are none. -/
structure IngressResponse where
  status : Nat
  success : Option Bool
  published : Option Nat
  dropped : Option Nat
  message : Option String
  error : Option String
deriving DecidableEq, Repr

/-- A message handed to the broker: the partition key and the event it
serializes. -/
structure KafkaMessage where
  key : String
  value : IngressEvent
deriving DecidableEq, Repr

/-- The server-side copy of the allow-list, declared separately in the
server source. -/
def ALLOWED_EVENT_TYPES_SERVER : List String :=
  ["ui.hotspot.entered",
   "ui.hotspot.left",
   "ui.voice.transcript.final",
   "ui.button.clicked",
   "ui.keyboard.pressed",
   "sim.room.occupancy.changed",
   "sim.agent.state.changed"]

/-- The filter predicate of the handler: keep an event only when its type
field is present, truthy (a missing or empty string is falsy in the source
condition) and in the server allow-list. -/
def ingressEventAllowed (e : IngressEvent) : Bool :=
  match e.type? with
  | none => false
  | some t => if t = "" then false else decide (t ∈ ALLOWED_EVENT_TYPES_SERVER)

/-- The partition key of a message: the sessionId of the event, falling
back to the string unknown when the field is absent or falsy. -/
def sessionKey (e : IngressEvent) : String :=
  match e.sessionId? with
  | none => "unknown"
  | some sid => if sid = "" then "unknown" else sid

/-- The handler of POST requests to the events route, following the source
order: when CONFLUENT_ENABLED is off, or the producer is not constructed,
acknowledge with a zero-published success before looking at the body; then
reject a missing or empty events array with a 400 error; then filter the
batch by ingressEventAllowed; when nothing survives the filter, acknowledge
with a zero-published success carrying only a message; otherwise attempt
the broker send, reporting a thrown error as a 500 with the error message,
and on success report the published and dropped counts and hand the
filtered batch, keyed by session, to the broker. -/
def handleEvents (cfg : IngressConfig) (body : Option (List IngressEvent))
    (sendOutcome : Option String) : IngressResponse × List KafkaMessage :=
  if cfg.confluentEnabled = false then
    (⟨200, some true, some 0, none, some "Confluent disabled", none⟩, [])
  else if cfg.producerConfigured = false then
    (⟨200, some true, some 0, none, some "Kafka not configured", none⟩, [])
  else
    match body with
    | none => (⟨400, none, none, none, none,
        some "Missing or empty events array"⟩, [])
    | some events =>
      if events.isEmpty then
        (⟨400, none, none, none, none,
          some "Missing or empty events array"⟩, [])
      else
        let allowedEvents := events.filter ingressEventAllowed
        if allowedEvents.isEmpty then
          (⟨200, some true, some 0, none,
            some "No allowed events to publish", none⟩, [])
        else
          match sendOutcome with
          | some errMsg =>
            (⟨500, none, none, none, some errMsg,
              some "Event publish failed"⟩, [])
          | none =>
            (⟨200, some true, some allowedEvents.length,
              some (events.length - allowedEvents.length), none, none⟩,
             allowedEvents.map (fun e => ⟨sessionKey e, e⟩))

/-! Concrete sample data used by the closed witness and counterexample
theorems. -/

/-- A ui button click envelope. -/
def demoButtonEvent : SeedcoreHotelEvent :=
  ⟨"evt-1", 5, "session-1", none, "ui", "ui.button.clicked", "demo-payload"⟩

/-- A sim agent state envelope. -/
def demoSimEvent : SeedcoreHotelEvent :=
  ⟨"evt-2", 6, "session-1", none, "sim", "sim.agent.state.changed",
   "demo-payload-2"⟩

/-- A ui hotspot envelope, allow-listed globally but outside the boot
allow-list. -/
def demoHotspotEvent : SeedcoreHotelEvent :=
  ⟨"evt-3", 7, "session-1", none, "ui", "ui.hotspot.entered",
   "demo-payload-3"⟩

/-- An envelope whose type is in no allow-list. -/
def demoBadTypeEvent : SeedcoreHotelEvent :=
  ⟨"evt-4", 8, "session-1", none, "ui", "ui.mouse.moved", "demo-payload-4"⟩

/-- A second button click with the same type and serialized payload as
demoButtonEvent but its own id and timestamp. -/
def demoButtonEventLater : SeedcoreHotelEvent :=
  ⟨"evt-5", 9, "session-1", none, "ui", "ui.button.clicked", "demo-payload"⟩

/-- A publisher state whose deduplication store last accepted the button
click key at time 5. -/
def demoRecentState : PublisherState :=
  ⟨true, false, 0, true, [], [("ui.button.clicked:demo-payload", 5)]⟩

/-- A publisher state at rest: AI enabled, circuit closed, no failures,
timer running, empty queue, no deduplication history. -/
def demoIdleState : PublisherState := ⟨true, false, 0, true, [], []⟩

/-- A publisher state during the boot screen: AI disabled, circuit
closed. -/
def demoBootState : PublisherState := ⟨false, false, 0, true, [], []⟩

/-- A publisher state two consecutive flush failures deep, with one
envelope still queued. -/
def demoTwoFailState : PublisherState :=
  ⟨true, false, 2, true, [demoButtonEvent], []⟩

/-- A publisher state whose queue already holds 99 envelopes, one failure
deep. -/
def demoNearFullState : PublisherState :=
  ⟨true, false, 1, true, List.replicate 99 demoSimEvent, []⟩

/-- A publisher state whose queue already holds 100 envelopes, one failure
deep. -/
def demoFullState : PublisherState :=
  ⟨true, false, 1, true, List.replicate 100 demoSimEvent, []⟩

/-- Three subscribers in order; the first unsubscribes itself when
invoked, the other two do nothing. -/
def demoCallbacks : List Callback :=
  [⟨0, .unsub 0⟩, ⟨1, .pass⟩, ⟨2, .pass⟩]

/-- An ingress configuration with the broker enabled and configured. -/
def demoCfgOn : IngressConfig := ⟨true, true⟩

/-- An ingress configuration with CONFLUENT_ENABLED off. -/
def demoCfgOff : IngressConfig := ⟨false, true⟩

/-- A received event whose type is not allow-listed. -/
def demoBadIngressEvent : IngressEvent :=
  ⟨some "not.allowed", some "session-1", some "demo-payload"⟩

/-- A received event with an allow-listed type. -/
def demoGoodIngressEvent : IngressEvent :=
  ⟨some "ui.button.clicked", some "session-1", some "demo-payload"⟩

/-! Helper lemmas about the deduplication store and the publish stages. -/

/-- Reading a key straight after assigning it yields the assigned
timestamp. -/
theorem lookupRecent_setRecent_self (r : List (String × Int)) (k : String)
    (v : Int) : lookupRecent (setRecent r k v) k = some v := by
  simp [lookupRecent, setRecent]

/-- An envelope whose type is outside the global allow-list leaves the
whole publisher state unchanged, whatever the circuit, flag and
deduplication state. -/
theorem publish_of_not_allowed (now : Int) (e : SeedcoreHotelEvent)
    (s : PublisherState) (h : e.type ∉ ALLOWED_EVENT_TYPES) :
    publish now e s = s := by
  simp [publish, publishCore, h]

/-- With the circuit closed and the AI flag up, publish reduces to the
allow-list and deduplication stage. -/
theorem publish_closed_ai (now : Int) (e : SeedcoreHotelEvent)
    (s : PublisherState) (hopen : s.isCircuitOpen = false)
    (hai : s.isAiEnabled = true) :
    publish now e s = publishCore now e s := by
  simp [publish, hopen, hai]

/-- The acceptance shape of the core stage: an allow-listed envelope with
no live deduplication entry is appended to the queue and its acceptance
time recorded. -/
theorem publishCore_accepts (now : Int) (e : SeedcoreHotelEvent)
    (s : PublisherState) (hallow : e.type ∈ ALLOWED_EVENT_TYPES)
    (hded : lookupRecent s.recent (eventKey e) = none ∨
      ∃ t, lookupRecent s.recent (eventKey e) = some t ∧
        ¬(t ≠ 0 ∧ now - t < 1000)) :
    publishCore now e s =
      { s with recent := setRecent s.recent (eventKey e) now,
               eventQueue := s.eventQueue ++ [e] } := by
  unfold publishCore
  rw [if_neg (by simp [hallow])]
  rcases hded with h | ⟨t, ht, hng⟩
  · rw [h]
  · rw [ht]
    dsimp only
    rw [if_neg hng]

/-- The drop shape of the core stage: an allow-listed envelope whose key
has a nonzero stored timestamp less than 1000 ms old leaves the state
unchanged. -/
theorem publishCore_drops (now : Int) (e : SeedcoreHotelEvent)
    (s : PublisherState) (t : Int)
    (hallow : e.type ∈ ALLOWED_EVENT_TYPES)
    (hlast : lookupRecent s.recent (eventKey e) = some t)
    (ht : t ≠ 0) (hwin : now - t < 1000) :
    publishCore now e s = s := by
  unfold publishCore
  rw [if_neg (by simp [hallow]), hlast]
  dsimp only
  rw [if_pos ⟨ht, hwin⟩]

/-- A received event the ingress filter keeps has a present type that is in
the server allow-list. -/
theorem ingressEventAllowed_spec (e : IngressEvent)
    (h : ingressEventAllowed e = true) :
    ∃ t, e.type? = some t ∧ t ∈ ALLOWED_EVENT_TYPES_SERVER := by
  unfold ingressEventAllowed at h
  cases hty : e.type? with
  | none => rw [hty] at h; cases h
  | some t =>
    rw [hty] at h
    dsimp only at h
    by_cases h0 : t = ""
    · rw [if_pos h0] at h; cases h
    · rw [if_neg h0] at h
      exact ⟨t, rfl, of_decide_eq_true h⟩

/-- Every message the ingress handler hands to the broker serializes an
event whose type is present and in the server allow-list. -/
theorem handleEvents_messages_allowed (cfg : IngressConfig)
    (body : Option (List IngressEvent)) (so : Option String) :
    ∀ m ∈ (handleEvents cfg body so).2,
      ∃ t, m.value.type? = some t ∧ t ∈ ALLOWED_EVENT_TYPES_SERVER := by
  intro m hm
  simp only [handleEvents] at hm
  repeat' split at hm
  all_goals simp at hm
  obtain ⟨e, ⟨-, hA⟩, rfl⟩ := hm
  exact ingressEventAllowed_spec e hA

/-- Claim C2: only allow-listed types reach the broker, enforced at two
independent points: a publish of a non-allow-listed type leaves the client
publisher state unchanged (nothing is enqueued, so nothing is ever sent),
every message the ingress endpoint hands to the broker has an allow-listed
type whatever the batch contents, and the two allow-lists agree. -/
theorem allowlist_enforced_client_and_server :
    (∀ (now : Int) (e : SeedcoreHotelEvent) (s : PublisherState),
        e.type ∉ ALLOWED_EVENT_TYPES → publish now e s = s) ∧
    (∀ (cfg : IngressConfig) (body : Option (List IngressEvent))
        (so : Option String),
        ∀ m ∈ (handleEvents cfg body so).2,
          ∃ t, m.value.type? = some t ∧ t ∈ ALLOWED_EVENT_TYPES_SERVER) ∧
    ALLOWED_EVENT_TYPES = ALLOWED_EVENT_TYPES_SERVER :=
  ⟨fun now e s h => publish_of_not_allowed now e s h,
   handleEvents_messages_allowed, rfl⟩

/-- Witness for C2 at concrete inputs: a publish of the non-allow-listed
demo envelope leaves the idle state unchanged, and the one message the
ingress handler produces for the good demo event has an allow-listed
type. -/
theorem allowlist_enforced_witness :
    publish 10 demoBadTypeEvent demoIdleState = demoIdleState ∧
    (∃ t, (KafkaMessage.mk "session-1" demoGoodIngressEvent).value.type? =
        some t ∧ t ∈ ALLOWED_EVENT_TYPES_SERVER) := by
  refine ⟨allowlist_enforced_client_and_server.1 10 demoBadTypeEvent
    demoIdleState (by decide), ?_⟩
  exact allowlist_enforced_client_and_server.2.1 demoCfgOn
    (some [demoGoodIngressEvent]) none
    ⟨"session-1", demoGoodIngressEvent⟩ (by decide)

/-- Claim C3: with the circuit closed and the AI-enabled flag false,
publish drops every sim-sourced envelope whatever its type, drops every
ui-sourced envelope whose type is outside the boot allow-list, forwards a
ui button click to the allow-list and deduplication stage, and drops a ui
hotspot-entered envelope. -/
theorem boot_filter_behavior (s : PublisherState) (now : Int)
    (hopen : s.isCircuitOpen = false) (hai : s.isAiEnabled = false) :
    (∀ e : SeedcoreHotelEvent, e.source = "sim" → publish now e s = s) ∧
    (∀ e : SeedcoreHotelEvent, e.source = "ui" → e.type ∉ BOOT_ALLOWED_UI →
        publish now e s = s) ∧
    (∀ e : SeedcoreHotelEvent, e.source = "ui" →
        e.type = "ui.button.clicked" →
        publish now e s = publishCore now e s) ∧
    (∀ e : SeedcoreHotelEvent, e.source = "ui" →
        e.type = "ui.hotspot.entered" → publish now e s = s) := by
  refine ⟨?_, ?_, ?_, ?_⟩
  · intro e h1
    simp [publish, hopen, hai, h1]
  · intro e h1 h2
    simp [publish, hopen, hai, h1, h2]
  · intro e h1 h2
    simp [publish, hopen, hai, h1, h2, BOOT_ALLOWED_UI]
  · intro e h1 h2
    simp [publish, hopen, hai, h1, h2, BOOT_ALLOWED_UI]

/-- Publishing against an open circuit leaves the state untouched. -/
theorem publish_of_open (now : Int) (e : SeedcoreHotelEvent)
    (s : PublisherState) (h : s.isCircuitOpen = true) :
    publish now e s = s := by
  simp [publish, h]

/-- Any sequence of publishes against an open circuit leaves the state
untouched. -/
theorem foldl_publish_of_open (s : PublisherState)
    (h : s.isCircuitOpen = true) (l : List (Int × SeedcoreHotelEvent)) :
    l.foldl (fun st p => publish p.1 p.2 st) s = s := by
  induction l with
  | nil => rfl
  | cons p rest ih =>
    rw [List.foldl_cons, publish_of_open p.1 p.2 s h]
    exact ih

/-- A flush on an empty queue returns at once with no network call. -/
theorem flushBegin_of_empty (s : PublisherState) (h : s.eventQueue = []) :
    flushBegin s = (none, s) := by
  simp [flushBegin, h]

/-- Claim C1: when the consecutive-failure counter stands at 2 and a third
flush failure lands, the circuit opens, the periodic timer is cancelled and
the queue is cleared; from then on every publish is a silent no-op (a whole
sequence of publishes leaves the state fixed and the queue empty) and a
flush attempt makes no network call; an explicit resetCircuit closes the
circuit, zeroes the counter and restarts the timer, after which a publish
of a fresh allow-listed envelope enqueues it again. -/
theorem circuit_opens_after_third_failure (s s' : PublisherState)
    (events : List SeedcoreHotelEvent)
    (hfail : s.consecutiveFailures = 2)
    (hs' : s' = flushEnd events false s) :
    s'.isCircuitOpen = true ∧
    s'.timerActive = false ∧
    s'.eventQueue = [] ∧
    (∀ (now : Int) (e : SeedcoreHotelEvent), publish now e s' = s') ∧
    (∀ l : List (Int × SeedcoreHotelEvent),
        l.foldl (fun st p => publish p.1 p.2 st) s' = s') ∧
    flushBegin s' = (none, s') ∧
    (resetCircuit s').isCircuitOpen = false ∧
    (resetCircuit s').consecutiveFailures = 0 ∧
    (resetCircuit s').timerActive = true ∧
    (∀ (now : Int) (e : SeedcoreHotelEvent),
        s.isAiEnabled = true → e.type ∈ ALLOWED_EVENT_TYPES →
        lookupRecent s.recent (eventKey e) = none →
        (publish now e (resetCircuit s')).eventQueue = [e]) := by
  have hE : s' =
      { s with consecutiveFailures := s.consecutiveFailures + 1,
               isCircuitOpen := true, timerActive := false,
               eventQueue := [] } := by
    rw [hs']
    unfold flushEnd
    rw [hfail]
    simp [maxFailures]
  have hopen : s'.isCircuitOpen = true := by rw [hE]
  have htimer : s'.timerActive = false := by rw [hE]
  have hqueue : s'.eventQueue = [] := by rw [hE]
  have hreset : resetCircuit s' =
      { s with consecutiveFailures := 0, isCircuitOpen := false,
               timerActive := true, eventQueue := [] } := by
    rw [hE]
    simp [resetCircuit]
  refine ⟨hopen, htimer, hqueue,
    fun now e => publish_of_open now e s' hopen,
    fun l => foldl_publish_of_open s' hopen l,
    flushBegin_of_empty s' hqueue,
    by rw [hreset], by rw [hreset], by rw [hreset], ?_⟩
  intro now e hai hallow hfresh
  rw [hreset, publish_closed_ai now e
      { s with consecutiveFailures := 0, isCircuitOpen := false,
               timerActive := true, eventQueue := [] } rfl hai,
    publishCore_accepts now e
      { s with consecutiveFailures := 0, isCircuitOpen := false,
               timerActive := true, eventQueue := [] } hallow (Or.inl hfresh)]
  rfl

/-- Witness for C1 at concrete inputs: from the two-failure state a failed
batch opens the circuit with an empty queue, a further publish is a no-op,
a flush makes no network call, and after resetCircuit a button click is
enqueued again. -/
theorem circuit_opens_after_third_failure_witness :
    (flushEnd [demoSimEvent] false demoTwoFailState).isCircuitOpen = true ∧
    (flushEnd [demoSimEvent] false demoTwoFailState).eventQueue = [] ∧
    publish 20 demoButtonEvent (flushEnd [demoSimEvent] false demoTwoFailState) =
      flushEnd [demoSimEvent] false demoTwoFailState ∧
    flushBegin (flushEnd [demoSimEvent] false demoTwoFailState) =
      (none, flushEnd [demoSimEvent] false demoTwoFailState) ∧
    (publish 30 demoButtonEvent
        (resetCircuit (flushEnd [demoSimEvent] false demoTwoFailState))).eventQueue =
      [demoButtonEvent] := by
  have h := circuit_opens_after_third_failure demoTwoFailState
    (flushEnd [demoSimEvent] false demoTwoFailState) [demoSimEvent] rfl rfl
  exact ⟨h.1, h.2.2.1, h.2.2.2.1 20 demoButtonEvent, h.2.2.2.2.2.1,
    h.2.2.2.2.2.2.2.2.2 30 demoButtonEvent rfl (by decide) rfl⟩

/-- Witness for C3 at concrete inputs: on the boot state, a sim envelope
and a ui hotspot envelope are dropped, and a ui button click proceeds to
the core stage. -/
theorem boot_filter_behavior_witness :
    publish 10 demoSimEvent demoBootState = demoBootState ∧
    publish 10 demoHotspotEvent demoBootState = demoBootState ∧
    publish 10 demoButtonEvent demoBootState =
      publishCore 10 demoButtonEvent demoBootState := by
  have h := boot_filter_behavior demoBootState 10 rfl rfl
  exact ⟨h.1 demoSimEvent rfl, h.2.2.2 demoHotspotEvent rfl rfl,
    h.2.2.1 demoButtonEvent rfl rfl⟩

/-- Claim C4: with the circuit closed, the AI flag up, an allow-listed type
and no prior deduplication entry for the pair, two publishes of envelopes
sharing type and serialized payload less than 1000 ms apart enqueue exactly
one envelope, while the same two publishes 1100 ms apart enqueue both. The
hypothesis that the first call happens at a positive time reflects that
Date.now is always positive; a stored timestamp of 0 would be falsy in the
source condition. -/
theorem dedup_window_one_second (s : PublisherState)
    (e1 e2 : SeedcoreHotelEvent) (t1 t2 : Int)
    (hopen : s.isCircuitOpen = false) (hai : s.isAiEnabled = true)
    (hallow : e1.type ∈ ALLOWED_EVENT_TYPES)
    (hty : e2.type = e1.type) (hpl : e2.payload = e1.payload)
    (hfresh : lookupRecent s.recent (eventKey e1) = none)
    (hpos : 0 < t1) (hle : t1 ≤ t2) :
    (t2 - t1 < 1000 →
      (publish t2 e2 (publish t1 e1 s)).eventQueue = s.eventQueue ++ [e1]) ∧
    (t2 - t1 = 1100 →
      (publish t2 e2 (publish t1 e1 s)).eventQueue =
        s.eventQueue ++ [e1, e2]) := by
  have hkey : eventKey e2 = eventKey e1 := by
    unfold eventKey
    rw [hty, hpl]
  have hallow2 : e2.type ∈ ALLOWED_EVENT_TYPES := by rw [hty]; exact hallow
  have h1 : publish t1 e1 s =
      { s with recent := setRecent s.recent (eventKey e1) t1,
               eventQueue := s.eventQueue ++ [e1] } := by
    rw [publish_closed_ai _ _ _ hopen hai,
      publishCore_accepts _ _ _ hallow (Or.inl hfresh)]
  have hlook : lookupRecent (publish t1 e1 s).recent (eventKey e2) =
      some t1 := by
    rw [h1, hkey]
    exact lookupRecent_setRecent_self s.recent (eventKey e1) t1
  constructor
  · intro hwin
    rw [publish_closed_ai t2 e2 (publish t1 e1 s) (by rw [h1]; exact hopen)
        (by rw [h1]; exact hai),
      publishCore_drops t2 e2 (publish t1 e1 s) t1 hallow2 hlook
        (by omega) hwin, h1]
  · intro hgap
    rw [publish_closed_ai t2 e2 (publish t1 e1 s) (by rw [h1]; exact hopen)
        (by rw [h1]; exact hai),
      publishCore_accepts t2 e2 (publish t1 e1 s) hallow2
        (Or.inr ⟨t1, hlook, fun h => absurd h.2 (by omega)⟩), h1]
    simp

/-- Witness for C4 at concrete inputs: two same-pair button clicks at times
5 and 500 leave one envelope enqueued; at times 5 and 1105 both are
enqueued. -/
theorem dedup_window_one_second_witness :
    (publish 500 demoButtonEventLater
        (publish 5 demoButtonEvent demoIdleState)).eventQueue =
      [demoButtonEvent] ∧
    (publish 1105 demoButtonEventLater
        (publish 5 demoButtonEvent demoIdleState)).eventQueue =
      [demoButtonEvent, demoButtonEventLater] := by
  have h1 := dedup_window_one_second demoIdleState demoButtonEvent
    demoButtonEventLater 5 500 rfl rfl (by decide) rfl rfl rfl
    (by decide) (by decide)
  have h2 := dedup_window_one_second demoIdleState demoButtonEvent
    demoButtonEventLater 5 1105 rfl rfl (by decide) rfl rfl rfl
    (by decide) (by decide)
  exact ⟨h1.1 (by decide), h2.2 (by decide)⟩

/-- Claim C10: a publish dropped by deduplication leaves the whole state,
the stored last-accepted timestamp included, unchanged; and once 1000 ms
have passed since the stored acceptance time, the next publish of the pair
is enqueued and the stored timestamp moves to the new acceptance time — so
the window is always measured from the most recent accepted envelope and a
sustained identical stream is never suppressed indefinitely. -/
theorem dedup_drop_preserves_window (s : PublisherState)
    (e : SeedcoreHotelEvent) (now t : Int)
    (hopen : s.isCircuitOpen = false) (hai : s.isAiEnabled = true)
    (hallow : e.type ∈ ALLOWED_EVENT_TYPES)
    (hlast : lookupRecent s.recent (eventKey e) = some t) (ht : t ≠ 0) :
    (now - t < 1000 → publish now e s = s) ∧
    (1000 ≤ now - t →
      (publish now e s).eventQueue = s.eventQueue ++ [e] ∧
      lookupRecent (publish now e s).recent (eventKey e) = some now) := by
  constructor
  · intro hwin
    rw [publish_closed_ai _ _ _ hopen hai]
    exact publishCore_drops now e s t hallow hlast ht hwin
  · intro hwin
    rw [publish_closed_ai _ _ _ hopen hai,
      publishCore_accepts _ _ _ hallow
        (Or.inr ⟨t, hlast, fun h => absurd h.2 (by omega)⟩)]
    exact ⟨rfl, lookupRecent_setRecent_self s.recent (eventKey e) now⟩

/-- Witness for C10 at concrete inputs: on a state whose store last
accepted the button pair at time 5, a publish at 500 changes nothing, and
a publish at 1200 enqueues the envelope and moves the stored timestamp to
1200. -/
theorem dedup_drop_preserves_window_witness :
    publish 500 demoButtonEvent demoRecentState = demoRecentState ∧
    (publish 1200 demoButtonEvent demoRecentState).eventQueue =
      [demoButtonEvent] ∧
    lookupRecent (publish 1200 demoButtonEvent demoRecentState).recent
      (eventKey demoButtonEvent) = some 1200 := by
  have h1 := dedup_drop_preserves_window demoRecentState demoButtonEvent
    500 5 rfl rfl (by decide) rfl (by decide)
  have h2 := dedup_drop_preserves_window demoRecentState demoButtonEvent
    1200 5 rfl rfl (by decide) rfl (by decide)
  exact ⟨h1.1 (by decide), (h2.2 (by decide)).1, (h2.2 (by decide)).2⟩

/-- Counterexample to claim C5 as stated: the re-queue bound is not a cap
on retained entries. With 99 envelopes already in the queue and a failed
batch of two, the whole batch is re-inserted and all 101 entries are
retained, so entries beyond the bound of 100 are kept, not dropped. -/
theorem requeue_bound_exceeded_counterexample :
    (flushEnd [demoButtonEvent, demoButtonEvent] false
        demoNearFullState).eventQueue.length = 101 ∧
    100 < (flushEnd [demoButtonEvent, demoButtonEvent] false
        demoNearFullState).eventQueue.length := by
  constructor <;> decide

/-- Claim C5 as amended: when a flush fails below the circuit threshold,
the re-queue is all or nothing, gated on the pre-insertion queue length:
with fewer than 100 entries currently queued the whole snapshotted batch is
re-inserted at the head, ahead of envelopes that arrived during the flush
and possibly carrying the queue past 100 entries; with 100 or more entries
queued the whole batch is lost and the queue is unchanged. -/
theorem requeue_all_or_nothing (s : PublisherState)
    (events : List SeedcoreHotelEvent)
    (hfail : s.consecutiveFailures + 1 < maxFailures) :
    (s.eventQueue.length < 100 →
      flushEnd events false s =
        { s with consecutiveFailures := s.consecutiveFailures + 1,
                 eventQueue := events ++ s.eventQueue }) ∧
    (100 ≤ s.eventQueue.length →
      flushEnd events false s =
        { s with consecutiveFailures := s.consecutiveFailures + 1 }) := by
  have h1 : ¬ (s.consecutiveFailures + 1 ≥ maxFailures) := by omega
  constructor
  · intro hlen
    simp [flushEnd, h1, hlen]
  · intro hlen
    have h2 : ¬ (s.eventQueue.length < 100) := by omega
    simp [flushEnd, h1, h2]

/-- Witness for C5 as amended at concrete inputs: a failed batch of one on
the 99-entry queue is re-inserted whole at the head; on the 100-entry queue
it is lost whole. -/
theorem requeue_all_or_nothing_witness :
    flushEnd [demoButtonEvent] false demoNearFullState =
      { demoNearFullState with
        consecutiveFailures := 2,
        eventQueue := demoButtonEvent :: List.replicate 99 demoSimEvent } ∧
    flushEnd [demoButtonEvent] false demoFullState =
      { demoFullState with consecutiveFailures := 2 } := by
  have h1 := requeue_all_or_nothing demoNearFullState [demoButtonEvent]
    (by decide)
  have h2 := requeue_all_or_nothing demoFullState [demoButtonEvent]
    (by decide)
  exact ⟨h1.1 (by decide), h2.2 (by decide)⟩

/-- Claim C6 (code bug): the emit dispatch iterates the live callbacks
array, so a callback that unsubscribes itself shifts later subscribers one
index down and the iteration skips the next one. With three subscribers of
ids 0, 1 and 2, where subscriber 0 unsubscribes itself when invoked, the
dispatch delivers to 0 and 2 only: subscriber 1, registered before the
dispatch began and never unsubscribed, does not receive the envelope even
though it is still subscribed afterwards. -/
theorem dispatch_skips_shifted_subscriber :
    (emitDispatch demoCallbacks).1 = [0, 2] ∧
    1 ∉ (emitDispatch demoCallbacks).1 ∧
    1 ∈ (emitDispatch demoCallbacks).2.map Callback.id := by
  refine ⟨by decide, by decide, by decide⟩

/-- Counterexample to claim C7 as stated: the handler checks the broker
flags before validating the body, so with CONFLUENT_ENABLED off a request
with no events array is acknowledged with a 200 zero-published success,
not rejected with a 400. -/
theorem missing_events_not_rejected_when_broker_disabled :
    (handleEvents demoCfgOff none none).1.status = 200 ∧
    (handleEvents demoCfgOff none none).1.status ≠ 400 ∧
    (handleEvents demoCfgOff none none).1.error = none ∧
    (handleEvents demoCfgOff none none).1.published = some 0 := by
  refine ⟨by decide, by decide, by decide, by decide⟩

/-- Claim C7 as amended: when the broker is enabled and configured, a
request whose body lacks an events array or whose events array is empty is
rejected with a 400 carrying an error field, and a failure of the broker
send during handling is reported as a 500 carrying the thrown message in a
message field. -/
theorem ingress_client_and_server_errors (cfg : IngressConfig)
    (hc : cfg.confluentEnabled = true) (hp : cfg.producerConfigured = true) :
    (∀ (body : Option (List IngressEvent)) (so : Option String),
        body = none ∨ body = some [] →
        (handleEvents cfg body so).1.status = 400 ∧
        (handleEvents cfg body so).1.error =
          some "Missing or empty events array") ∧
    (∀ (events : List IngressEvent) (m : String),
        events.filter ingressEventAllowed ≠ [] →
        (handleEvents cfg (some events) (some m)).1.status = 500 ∧
        (handleEvents cfg (some events) (some m)).1.message = some m ∧
        (handleEvents cfg (some events) (some m)).1.error =
          some "Event publish failed") := by
  constructor
  · intro body so hbody
    rcases hbody with rfl | rfl
    · simp [handleEvents, hc, hp]
    · simp [handleEvents, hc, hp]
  · intro events m hne
    have hev : events ≠ [] := by
      intro h
      rw [h] at hne
      exact hne rfl
    simp [handleEvents, hc, hp, List.isEmpty_iff, hev, hne]

/-- Witness for C7 as amended at concrete inputs: with the broker on, a
missing body is a 400 with the error field, and a send failure on a good
event is a 500 with the thrown message. -/
theorem ingress_client_and_server_errors_witness :
    (handleEvents demoCfgOn none none).1.status = 400 ∧
    (handleEvents demoCfgOn none none).1.error =
      some "Missing or empty events array" ∧
    (handleEvents demoCfgOn (some [demoGoodIngressEvent])
        (some "boom")).1.status = 500 ∧
    (handleEvents demoCfgOn (some [demoGoodIngressEvent])
        (some "boom")).1.message = some "boom" := by
  have h := ingress_client_and_server_errors demoCfgOn rfl rfl
  have h1 := h.1 none none (Or.inl rfl)
  have h2 := h.2 [demoGoodIngressEvent] "boom" (by decide)
  exact ⟨h1.1, h1.2, h2.1, h2.2.1⟩

/-- Claim C8: whenever CONFLUENT_ENABLED is off or the producer is not
constructed, the handler answers every request, whatever the body, with a
200 success carrying a zero published count and no error field, and hands
nothing to the broker. -/
theorem broker_disabled_zero_published_success (cfg : IngressConfig)
    (body : Option (List IngressEvent)) (so : Option String)
    (h : cfg.confluentEnabled = false ∨ cfg.producerConfigured = false) :
    (handleEvents cfg body so).1.status = 200 ∧
    (handleEvents cfg body so).1.success = some true ∧
    (handleEvents cfg body so).1.published = some 0 ∧
    (handleEvents cfg body so).1.error = none ∧
    (handleEvents cfg body so).2 = [] := by
  rcases h with h | h
  · simp [handleEvents, h]
  · by_cases hc : cfg.confluentEnabled = false
    · simp [handleEvents, hc]
    · simp [handleEvents, hc, h]

/-- Witness for C8 at concrete inputs: with CONFLUENT_ENABLED off, a batch
holding a good and a bad event is acknowledged with a 200 zero-published
success and nothing reaches the broker. -/
theorem broker_disabled_zero_published_success_witness :
    (handleEvents demoCfgOff
        (some [demoGoodIngressEvent, demoBadIngressEvent]) none).1.status =
      200 ∧
    (handleEvents demoCfgOff
        (some [demoGoodIngressEvent, demoBadIngressEvent]) none).1.published =
      some 0 ∧
    (handleEvents demoCfgOff
        (some [demoGoodIngressEvent, demoBadIngressEvent]) none).2 = [] := by
  have h := broker_disabled_zero_published_success demoCfgOff
    (some [demoGoodIngressEvent, demoBadIngressEvent]) none (Or.inl rfl)
  exact ⟨h.1, h.2.2.1, h.2.2.2.2⟩

/-- Counterexample to claim C9 as stated: with the broker configured, a
batch holding one event of a non-allow-listed type is answered with a 200
success and a zero published count, but the response carries no dropped
field at all — in particular dropped is not 1. -/
theorem fully_filtered_batch_has_no_dropped_field :
    (handleEvents demoCfgOn (some [demoBadIngressEvent]) none).1.dropped =
      none ∧
    (handleEvents demoCfgOn (some [demoBadIngressEvent]) none).1.dropped ≠
      some 1 ∧
    (handleEvents demoCfgOn (some [demoBadIngressEvent]) none).1.success =
      some true ∧
    (handleEvents demoCfgOn (some [demoBadIngressEvent]) none).1.published =
      some 0 := by
  refine ⟨by decide, by decide, by decide, by decide⟩

/-- Claim C9 as amended: with the broker configured, a non-empty batch in
which no event passes the allow-list filter is answered with a 200 success
carrying published 0, an explanatory message and no dropped field, and
nothing is handed to the broker; the dropped count appears in the response
only on the branch where at least one event is accepted for publishing. -/
theorem fully_filtered_batch_response (cfg : IngressConfig)
    (events : List IngressEvent) (so : Option String)
    (hc : cfg.confluentEnabled = true) (hp : cfg.producerConfigured = true)
    (hne : events ≠ []) (hfil : events.filter ingressEventAllowed = []) :
    (handleEvents cfg (some events) so).1 =
      ⟨200, some true, some 0, none, some "No allowed events to publish",
       none⟩ ∧
    (handleEvents cfg (some events) so).2 = [] := by
  constructor <;> simp [handleEvents, hc, hp, List.isEmpty_iff, hne, hfil]

/-- Witness for C9 as amended at concrete inputs: the batch holding only
the non-allow-listed demo event gets the zero-published success with the
message and no dropped field, and the broker receives nothing. -/
theorem fully_filtered_batch_response_witness :
    (handleEvents demoCfgOn (some [demoBadIngressEvent]) none).1 =
      ⟨200, some true, some 0, none, some "No allowed events to publish",
       none⟩ ∧
    (handleEvents demoCfgOn (some [demoBadIngressEvent]) none).2 = [] := by
  exact fully_filtered_batch_response demoCfgOn [demoBadIngressEvent] none
    rfl rfl (by decide) (by decide)
